import Mathlib

/-!
Verification of the supply-slot search/booking subsystem of the repository
(a Telegram bot monitoring marketplace supply slots).

Shallow embedding conventions:
* Python floats that hold slot coefficients are modelled as `Rat`
  (the repository only ever compares and orders them).
* `datetime` values are modelled as `Nat` day ordinals; the code only
  compares them, and mock dates are `now + 1 + i` days.
* Fallible Python code is modelled with `Except String`; an uncaught
  Python exception is an `.error`.
* Async calls to the network or the database are modelled by passing the
  outcome of the call (or an oracle producing it) as an explicit argument.
-/

set_option autoImplicit false

namespace Postavki

/-! ## Data model (src/wb_api/models.py and src/database/models.py) -/

/-- Embeds `Warehouse` from src/wb_api/models.py. -/
structure Warehouse where
  id : String
  name : String
  region : String
  address : Option String := none
  is_active : Bool := true
  deriving DecidableEq, Repr

/-- Embeds `SupplySlot` from src/wb_api/models.py.
`date` is a day ordinal; `region : Option String` models the nullable field
(default `None`). -/
structure SupplySlot where
  id : String
  warehouse_id : String
  warehouse_name : String
  date : Nat
  time_start : String
  time_end : String
  coefficient : Rat
  is_available : Bool := true
  region : Option String := none
  deriving DecidableEq, Repr

/-- The `SupplySlot.time_slot` property from src/wb_api/models.py. -/
def SupplySlot.time_slot (s : SupplySlot) : String :=
  s.time_start ++ "-" ++ s.time_end

/-- Embeds the `UserFilters` ORM model from src/database/models.py
(column defaults reproduced).  The `time_slots` JSON column holds a list
of plain string ids such as `morning`: its only writer,
`handle_save_time_slots` in src/bot/handlers/settings.py lines 376-388,
stores the ids toggled from the `TIME_SLOTS` table. -/
structure UserFilters where
  warehouses : List String := []
  regions : List String := []
  min_coefficient : Rat := 1
  max_coefficient : Option Rat := none
  time_slots : List String := []
  auto_booking_enabled : Bool := false
  auto_booking_limit : Int := 5
  notifications_enabled : Bool := true
  quiet_hours_start : Option Nat := none
  quiet_hours_end : Option Nat := none
  deriving DecidableEq, Repr

/-- Embeds the `WBAccount` ORM model from src/database/models.py. -/
structure WBAccount where
  id : Nat
  user_id : Nat
  api_key : String
  name : String
  is_active : Bool := true
  deriving DecidableEq, Repr

/-- Embeds the `User` ORM model from src/database/models.py, with its
`wb_accounts` relationship loaded. -/
structure UserRec where
  id : Nat
  telegram_id : Nat
  is_active : Bool := true
  wb_accounts : List WBAccount := []
  deriving DecidableEq, Repr

/-- Embeds the `BookedSlot` ORM model from src/database/models.py.
`supply_number` is nullable and defaults to `None`. -/
structure BookedSlotRec where
  user_id : Nat
  wb_account_id : Nat
  slot_id : String
  warehouse_id : String
  warehouse_name : String
  supply_date : Nat
  time_slot : String
  coefficient : Rat
  supply_number : Option String := none
  auto_booked : Bool := false
  status : String := "booked"
  deriving DecidableEq, Repr

/-! ## Slot filtering

Two distinct filter implementations exist in the source:
`SupplyMonitor._apply_filters` (src/services/monitor.py lines 109-156) and
the inline filter of `BookingService.auto_book_supply`
(src/services/booking.py lines 146-179).  Both are embedded here. -/

/-- The quiet-hours suppression test of `SupplyMonitor._apply_filters`,
src/services/monitor.py lines 142-152: with notifications enabled and both
bounds set, the current hour is suppressed inside `[start, end)` when
`start <= end`, and inside the wrapped interval `[start, 24) ∪ [0, end)`
when `start > end`. -/
def quietHoursSuppressed (qs qe : Option Nat) (notificationsOn : Bool)
    (hour : Nat) : Bool :=
  if notificationsOn then
    match qs with
    | none => false
    | some s =>
      match qe with
      | none => false
      | some e =>
        if s ≤ e then decide (s ≤ hour ∧ hour < e)
        else decide (hour ≥ s ∨ hour < e)
  else false

/-- Truthiness of `slot.region` in the Python test
`if slot.region and ...` (src/services/booking.py line 163):
`None` and the empty string are falsy. -/
def regionTruthy : Option String → Bool
  | none => false
  | some r => r ≠ ""

/-- Membership of the slot region in the allowed-region list, as the
Python `slot.region not in filters.regions` computes it: `None` is never a
member of a list of strings. -/
def regionMem (region : Option String) (allowed : List String) : Bool :=
  match region with
  | none => false
  | some r => allowed.contains r

/-- The per-slot body of `SupplyMonitor._apply_filters`
(src/services/monitor.py lines 116-154): `.ok true` iff no `continue`
branch fires.  Note the truthiness test on `max_coefficient`
(`if filters.max_coefficient and ...`): a stored `0.0` disables the upper
bound.  With a non-empty `time_slots` list, line 136 subscripts the first
stored string id (`time_range["start"]` with `time_range` a string),
which raises `TypeError` — the hour-range comparison is never reached on
the data the repository stores.  `hour` is `datetime.now().hour`. -/
def monitorKeeps (f : UserFilters) (slot : SupplySlot) (hour : Nat) :
    Except String Bool :=
  if f.warehouses ≠ [] ∧ ¬ f.warehouses.contains slot.warehouse_id then
    .ok false
  else if f.regions ≠ [] ∧ ¬ regionMem slot.region f.regions then .ok false
  else if slot.coefficient < f.min_coefficient then .ok false
  else if (match f.max_coefficient with
           | some m => decide (m ≠ 0 ∧ slot.coefficient > m)
           | none => false) then .ok false
  else if f.time_slots ≠ [] then
    .error "TypeError: string indices must be integers"
  else if quietHoursSuppressed f.quiet_hours_start f.quiet_hours_end
      f.notifications_enabled hour then .ok false
  else .ok true

/-- The accumulation loop of `SupplyMonitor._apply_filters`
(src/services/monitor.py lines 115-156); an exception raised for one slot
aborts the whole call (it propagates to the per-account handler of
`_check_user_slots`). -/
def monitorFilterLoop (f : UserFilters) (hour : Nat) :
    List SupplySlot → Except String (List SupplySlot)
  | [] => .ok []
  | s :: rest => do
    let keep ← monitorKeeps f s hour
    let tail ← monitorFilterLoop f hour rest
    pure (if keep then s :: tail else tail)

/-- Embeds `SupplyMonitor._apply_filters` (src/services/monitor.py
lines 109-156): with no filters row the slots pass through unfiltered. -/
def monitorApplyFilters (filters : Option UserFilters)
    (slots : List SupplySlot) (hour : Nat) :
    Except String (List SupplySlot) :=
  match filters with
  | none => .ok slots
  | some f => monitorFilterLoop f hour slots

/-- Whether the first character list is an initial segment of the second
(helper for the Python substring test). -/
def charsLead : List Char → List Char → Bool
  | [], _ => true
  | _ :: _, [] => false
  | a :: as, b :: bs => a = b && charsLead as bs

/-- Whether the first character list occurs contiguously inside the
second. -/
def charsContain (needle : List Char) : List Char → Bool
  | [] => needle.isEmpty
  | b :: bs => charsLead needle (b :: bs) || charsContain needle bs

/-- The Python expression `needle in haystack` on strings: substring
containment (an empty needle always matches). -/
def pyInStr (needle haystack : String) : Bool :=
  charsContain needle.toList haystack.toList

/-- The per-slot filter of `BookingService.auto_book_supply`
(src/services/booking.py lines 148-179).  The `time_slots` branch
evaluates `any(time in slot_time for time in allowed_times)` (line 176)
with each stored string id as the left operand and
`f"{slot.time_start}-{slot.time_end}"` as the right: a plain substring
test that runs without error (an id such as `morning` never occurs in an
`HH:MM-HH:MM` string, so such slots are simply dropped). -/
def bookingKeeps (filters : Option UserFilters) (slot : SupplySlot) :
    Bool :=
  if slot.is_available = false then false
  else
    match filters with
    | none => true
    | some f =>
      if f.warehouses ≠ [] ∧ ¬ f.warehouses.contains slot.warehouse_id then
        false
      else if regionTruthy slot.region ∧ f.regions ≠ [] ∧
          ¬ regionMem slot.region f.regions then false
      else if slot.coefficient < f.min_coefficient then false
      else if (match f.max_coefficient with
               | some m => decide (slot.coefficient > m)
               | none => false) then false
      else if f.time_slots ≠ [] ∧
          ¬ f.time_slots.any (fun w => pyInStr w slot.time_slot) then false
      else true

/-- The `suitable_slots` accumulation loop of
`BookingService.auto_book_supply` (src/services/booking.py
lines 146-179). -/
def bookingSuitable (filters : Option UserFilters)
    (slots : List SupplySlot) : List SupplySlot :=
  slots.filter (fun s => bookingKeeps filters s)

/-! ## MarketplaceClient (src/wb_api/client.py) -/

/-- The demo-mode related state of `WildberriesAPI`
(src/wb_api/client.py lines 16-28): `demo_mode` is initialised to
`force_demo or settings.WB_API_FORCE_DEMO_MODE` and `allow_demo_fallback`
to `settings.WB_API_ALLOW_DEMO_FALLBACK`. -/
structure ClientState where
  demo_mode : Bool
  allow_demo_fallback : Bool
  deriving DecidableEq, Repr

/-- Embeds `WildberriesAPI._enable_demo_mode` (src/wb_api/client.py lines 41-50):
switches demo mode on and reports `True` when fallback is allowed, reports
`False` (leaving the state unchanged) when fallback is disallowed, and
reports `True` when demo mode is already on and fallback allowed. -/
def enable_demo_mode (st : ClientState) : Bool × ClientState :=
  if ¬ st.demo_mode ∧ st.allow_demo_fallback then
    (true, { st with demo_mode := true })
  else if ¬ st.allow_demo_fallback then (false, st)
  else (true, st)

/-- Outcome of one probe of `validate_api_key`: a single
(auth method, endpoint) GET attempt (src/wb_api/client.py lines 296-355). -/
inductive ProbeResult where
  | ok200
  | status401
  | status404
  | otherStatus (code : Nat)
  | connectError
  deriving DecidableEq, Repr

/-- Embeds `WildberriesAPI.validate_api_key` (src/wb_api/client.py lines 264-376)
over the list of probe outcomes for the 6 auth methods x 5 test endpoints
tried in order.  The probe loop returns `True` on the first 200 response
and silently continues past every other outcome (401, 404, other statuses,
connection errors).  When no probe succeeds, lines 364-369 run
`if not self.demo_mode: await self._enable_demo_mode(); return True` —
the Boolean result of `_enable_demo_mode` is discarded (modelled by the
wildcard binding), so `True` is returned even when fallback is disallowed
and demo mode was not actually enabled; `False` is returned only when
`demo_mode` was already set on entry. -/
def validate_api_key (st : ClientState) (probes : List ProbeResult) :
    Bool × ClientState :=
  if probes.any (fun r => r = .ok200) then (true, st)
  else if ¬ st.demo_mode then
    let (_, st1) := enable_demo_mode st
    (true, st1)
  else (false, st)

/-- Embeds `WildberriesAPI._generate_mock_warehouses`
(src/wb_api/client.py lines 161-221). -/
def generate_mock_warehouses : List Warehouse :=
  [ { id := "117501", name := "Коледино", region := "Московская область",
      address := some "Московская область, г. Подольск, деревня Коледино" },
    { id := "120762", name := "Санкт-Петербург (Уткина Заводе)",
      region := "г. Санкт-Петербург",
      address := some "г. Санкт-Петербург, Уткина Заводе" },
    { id := "117986", name := "Краснодар (Тихорецкая)",
      region := "Краснодарский край",
      address := some "г. Краснодар, ул. Тихорецкая" },
    { id := "130744", name := "Екатеринбург - Перспективный 12/2",
      region := "Свердловская область",
      address := some "г. Екатеринбург, ул. Перспективная, 12/2" },
    { id := "159402", name := "Тула", region := "Тульская область",
      address := some "г. Тула, складской комплекс" },
    { id := "2737", name := "Невинномысск", region := "Ставропольский край",
      address := some "г. Невинномысск, промзона" },
    { id := "206236", name := "Казань", region := "Республика Татарстан",
      address := some "г. Казань, складской комплекс" },
    { id := "686", name := "Новосибирск", region := "Новосибирская область",
      address := some "г. Новосибирск, складской комплекс" } ]

/-- Embeds `WildberriesAPI._generate_mock_slots`
(src/wb_api/client.py lines 223-262): 10 consecutive days starting
tomorrow, the first 3 mock warehouses, one morning slot (coefficient 1.2
on the first 3 days, 1.0 afterwards, always available) and one evening
slot (coefficient 1.0, available on even day indices) each.
`now` is the current day ordinal. -/
def generate_mock_slots (now : Nat) : List SupplySlot :=
  (List.range 10).flatMap (fun i =>
    (generate_mock_warehouses.take 3).flatMap (fun w =>
      [ { id := "slot_" ++ w.id ++ "_" ++ toString i ++ "_morning",
          warehouse_id := w.id, warehouse_name := w.name,
          date := now + 1 + i, time_start := "09:00", time_end := "12:00",
          coefficient := if i < 3 then mkRat 12 10 else 1,
          is_available := true, region := some w.region },
        { id := "slot_" ++ w.id ++ "_" ++ toString i ++ "_evening",
          warehouse_id := w.id, warehouse_name := w.name,
          date := now + 1 + i, time_start := "14:00", time_end := "18:00",
          coefficient := 1, is_available := decide (i % 2 = 0),
          region := some w.region } ]))

/-- The upstream behaviour `get_supply_slots` can observe:
`slotsEndpoint` is the result of `_try_endpoint_variants("slots")`
(`none` when no endpoint answers), and `slotsResponse` the parsed result
of `_make_request` on that endpoint (an `.error` when the request raises,
after the client's own backup-URL retry). -/
structure Upstream where
  slotsEndpoint : Option String
  slotsResponse : Except String (List SupplySlot)

/-- A simulated total upstream outage: no slots endpoint answers and any
request raises. -/
def totalOutage : Upstream :=
  ⟨none, .error "Request failed: connection error"⟩

/-- Embeds `WildberriesAPI.get_supply_slots` (src/wb_api/client.py lines 522-591).
In demo mode it returns the mock slots directly.  Otherwise the `try`
body either finds no endpoint — attempting demo fallback and raising
`WBAPIError` when that is refused — or performs the request and keeps the
available slots; the outer `except` handler attempts demo fallback once
more and re-raises when it is refused. -/
def get_supply_slots (st : ClientState) (up : Upstream) (now : Nat) :
    Except String (List SupplySlot) × ClientState :=
  if st.demo_mode then (.ok (generate_mock_slots now), st)
  else
    let body : Except String (List SupplySlot) × ClientState :=
      match up.slotsEndpoint with
      | none =>
        let (ok, st1) := enable_demo_mode st
        if ok then (.ok (generate_mock_slots now), st1)
        else (.error "No working slots endpoint found", st1)
      | some _ =>
        match up.slotsResponse with
        | .ok items => (.ok (items.filter (fun s => s.is_available)), st)
        | .error e => (.error e, st)
    match body with
    | (.ok slots, st1) => (.ok slots, st1)
    | (.error e, st1) =>
      let (ok, st2) := enable_demo_mode st1
      if ok then (.ok (generate_mock_slots now), st2)
      else (.error e, st2)

/-! ## Database manager interface (src/database/manager.py) -/

/-- The persistent state behind `DatabaseManager` that the booking paths
touch: users (with their accounts loaded), one filters row per user id,
and the booked-slot records. -/
structure Db where
  users : List UserRec := []
  filters : List (Nat × UserFilters) := []
  booked_slots : List BookedSlotRec := []
  deriving DecidableEq, Repr

/-- Embeds `DatabaseManager.get_user` (src/database/manager.py lines 67-73):
selects by `telegram_id`. -/
def db_get_user (db : Db) (telegram_id : Nat) : Option UserRec :=
  db.users.find? (fun u => u.telegram_id = telegram_id)

/-- Embeds `DatabaseManager.get_user_with_accounts`
(src/database/manager.py lines 75-84): also selects by `telegram_id`;
accounts are already loaded in our `UserRec`. -/
def db_get_user_with_accounts (db : Db) (telegram_id : Nat) :
    Option UserRec :=
  db.users.find? (fun u => u.telegram_id = telegram_id)

/-- Embeds `DatabaseManager.get_user_filters` (src/database/manager.py
lines 120-126): selects by `user_id`. -/
def db_get_user_filters (db : Db) (user_id : Nat) : Option UserFilters :=
  (db.filters.find? (fun p => p.1 = user_id)).map (fun p => p.2)

/-- Embeds `DatabaseManager.add_booked_slot` (src/database/manager.py
lines 143-161) applied to `slot.to_dict()`
(src/wb_api/models.py): the `supply_number` column keeps its default
`None` and `status` its default. -/
def db_add_booked_slot (db : Db) (user_id wb_account_id : Nat)
    (slot : SupplySlot) (auto_booked : Bool) : Db :=
  { db with booked_slots := db.booked_slots ++
      [ { user_id := user_id, wb_account_id := wb_account_id,
          slot_id := slot.id, warehouse_id := slot.warehouse_id,
          warehouse_name := slot.warehouse_name, supply_date := slot.date,
          time_slot := slot.time_slot, coefficient := slot.coefficient,
          auto_booked := auto_booked } ] }

/-- The methods defined on `DatabaseManager` in src/database/manager.py
(its complete public and private surface). -/
def databaseManagerMethods : List String :=
  [ "init_db", "close", "session", "create_user", "get_user",
    "get_user_with_accounts", "add_wb_account", "get_user_accounts",
    "delete_wb_account", "get_user_filters", "update_user_filters",
    "add_booked_slot", "get_user_booked_slots", "get_active_users" ]

/-- Python attribute lookup on a `DatabaseManager` instance: resolving a
name that is not among `databaseManagerMethods` raises `AttributeError`. -/
def dbMethodLookup (m : String) : Except String Unit :=
  if databaseManagerMethods.contains m then .ok ()
  else .error ("AttributeError: DatabaseManager has no attribute " ++ m)

/-! ## BookingExecutor (src/services/booking.py) -/

/-- Notifications emitted through `NotificationService`
(src/services/notification.py) by the booking and monitoring paths. -/
inductive NotificationEvent where
  | bookingSuccess (telegram_id : Nat) (slot_id : String) (auto : Bool)
  | bookingErr (telegram_id : Nat) (message : String)
  | newSlots (telegram_id : Nat) (slot_ids : List String)
  deriving DecidableEq, Repr

/-- The fixed text sent by the generic exception handler of
`BookingService.book_slot` (src/services/booking.py line 67). -/
def unknownBookingErrorText : String :=
  "Неизвестная ошибка при бронировании"

/-- Outcome of the `api.book_slot(slot.id)` call as observed by
`BookingService.book_slot`: the call returns a Boolean or raises either a
`BookingError` or some other exception. -/
inductive BookApiOutcome where
  | retTrue
  | retFalse
  | raiseBookingError (message : String)
  | raiseOther (message : String)
  deriving DecidableEq, Repr

/-- Embeds `BookingService.book_slot` (src/services/booking.py lines 16-69).
The user is re-fetched with `get_user(account.user_id)` (which matches on
`telegram_id`).  On a `True` API result the booked slot is persisted and a
success notification sent; on a `BookingError` an error notification
carrying the exception message is sent and `False` returned; on any other
exception an error notification with the fixed generic text is sent and
`False` returned — nothing propagates past the handlers once the user
lookup succeeded. -/
def book_slot (db : Db) (account : WBAccount) (slot : SupplySlot)
    (auto_booked : Bool) (api : BookApiOutcome) :
    Bool × Db × List NotificationEvent :=
  match db_get_user db account.user_id with
  | none => (false, db, [])
  | some user =>
    match api with
    | .retTrue =>
      let db1 := db_add_booked_slot db user.id account.id slot auto_booked
      (true, db1, [.bookingSuccess user.telegram_id slot.id auto_booked])
    | .retFalse => (false, db, [])
    | .raiseBookingError msg =>
      (false, db, [.bookingErr user.telegram_id msg])
    | .raiseOther _ =>
      (false, db, [.bookingErr user.telegram_id unknownBookingErrorText])

/-- Stable insertion of one element into a list sorted by the Boolean
preorder `le` (used to model Python's stable `list.sort` / `sorted`). -/
def insertByKey {α : Type} (le : α → α → Bool) (x : α) :
    List α → List α
  | [] => [x]
  | y :: ys => if le x y then x :: y :: ys else y :: insertByKey le x ys

/-- Stable sort by the Boolean preorder `le`: elements comparing equal
keep their original relative order, as Python's `sort`/`sorted`
guarantee. -/
def sortByKey {α : Type} (le : α → α → Bool) : List α → List α
  | [] => []
  | x :: xs => insertByKey le x (sortByKey le xs)

/-- The sort key of `BookingService.auto_book_supply` line 186:
`key=lambda x: (x.date, -x.coefficient)` — earliest date first, then
highest coefficient. -/
def supplyKeyLe (a b : SupplySlot) : Bool :=
  decide (a.date < b.date ∨ (a.date = b.date ∧ b.coefficient ≤ a.coefficient))

/-- Embeds `BookingService.auto_book_supply` (src/services/booking.py
lines 117-217).  Arguments supply the outcomes of the network calls:
`slotsResult` is what `api.get_supply_slots(days_ahead=14)` produced and
`api` the booking outcome per slot id.  Any exception inside the `try`
body — including the `AttributeError` raised by the call to the
non-existent `DatabaseManager.update_booked_slot_supply_number` after a
successful booking — is caught by the outer handler, which returns
`False`. -/
def auto_book_supply (db : Db) (user_id account_id : Nat)
    (supply_number : String) (slotsResult : Except String (List SupplySlot))
    (api : String → BookApiOutcome) : Bool × Db × List NotificationEvent :=
  match db_get_user_with_accounts db user_id with
  | none => (false, db, [])
  | some user =>
    match user.wb_accounts.find? (fun a => a.id = account_id) with
    | none => (false, db, [])
    | some account =>
      if account.is_active = false then (false, db, [])
      else
        let filters := db_get_user_filters db user.id
        match slotsResult with
        | .error _ => (false, db, [])
        | .ok available_slots =>
          if available_slots = [] then (false, db, [])
          else
            let suitable := bookingSuitable filters available_slots
            if suitable = [] then (false, db, [])
            else
              match sortByKey supplyKeyLe suitable with
              | [] => (false, db, [])
              | best :: _ =>
                let (success, db1, notifs) :=
                  book_slot db account best true (api best.id)
                if success then
                  match dbMethodLookup "update_booked_slot_supply_number" with
                  | .ok _ =>
                    -- unreachable: the method is absent from manager.py,
                    -- so the supply number is never attached
                    (true, db1, notifs)
                  | .error _ => (false, db1, notifs)
                else (false, db1, notifs)

/-! ## PeriodicMonitor (src/services/monitor.py) -/

/-- The id set `{slot.id for slot in slots}` of src/services/monitor.py
line 95. -/
def slotIds (slots : List SupplySlot) : Finset String :=
  (slots.map (fun s => s.id)).toFinset

/-- The new-slot diffing step of `SupplyMonitor._check_user_slots` for one
account (src/services/monitor.py lines 92-104): from the remembered id set
and the freshly filtered slots it computes the slots reported as new and
the replacement remembered set.  `_process_new_slots` (and hence any
notification) runs only when the new id set is non-empty. -/
def accountTick (lastIds : Finset String) (filteredSlots : List SupplySlot) :
    List SupplySlot × Finset String :=
  let currentIds := slotIds filteredSlots
  let newIds := currentIds \ lastIds
  (filteredSlots.filter (fun s => s.id ∈ newIds), currentIds)

/-- Embeds `SupplyMonitor._get_today_bookings_count`
(src/services/monitor.py lines 197-201): the body is a stub that always
returns `0`; its comment says it should query the database for today's
bookings. -/
def get_today_bookings_count (_user_id : Nat) : Nat := 0

/-- The auto-booking loop of `SupplyMonitor._process_new_slots`
(src/services/monitor.py lines 172-187): iterate over the pre-computed
candidate prefix, decrement the remaining budget on each successful
booking, drop booked slots from the notification list, and stop once the
budget reaches zero.  `book` is the success oracle for
`BookingService.book_slot`. -/
def autoBookLoop (book : SupplySlot → Bool) :
    List SupplySlot → Int → List SupplySlot →
    List SupplySlot × List SupplySlot
  | [], _, notifyList => ([], notifyList)
  | s :: rest, remaining, notifyList =>
    if book s then
      let remaining1 := remaining - 1
      let notifyList1 := notifyList.filter (fun t => t.id ≠ s.id)
      if remaining1 ≤ 0 then ([s], notifyList1)
      else
        let (b, n) := autoBookLoop book rest remaining1 notifyList1
        (s :: b, n)
    else autoBookLoop book rest remaining notifyList

/-- Result of `SupplyMonitor._process_new_slots` for one user and
account: the successfully auto-booked slots, the slots left in the
notification list, and whether the batched new-slot notification was
sent. -/
structure ProcessResult where
  booked : List SupplySlot
  notifyList : List SupplySlot
  notificationSent : Bool
  deriving DecidableEq, Repr

/-- Embeds `SupplyMonitor._process_new_slots` (src/services/monitor.py
lines 158-195).  With auto-booking enabled, the remaining budget for the
tick is `auto_booking_limit - _get_today_bookings_count(user)`; the new
slots are sorted by coefficient descending (Python's stable `sorted` with
`reverse=True`) and the first `remaining` of them are attempted.  The
slots still in the list afterwards are sent as one notification when the
list is non-empty and notifications are enabled. -/
def process_new_slots (filters : Option UserFilters)
    (book : SupplySlot → Bool) (user_id : Nat) (slots : List SupplySlot) :
    ProcessResult :=
  let (booked, notifyList) :=
    match filters with
    | some f =>
      if f.auto_booking_enabled then
        let remaining : Int :=
          f.auto_booking_limit - get_today_bookings_count user_id
        if 0 < remaining then
          let slots_to_book :=
            sortByKey
              (fun a b : SupplySlot => decide (b.coefficient ≤ a.coefficient))
              slots
          autoBookLoop book (slots_to_book.take remaining.toNat) remaining
            slots
        else ([], slots)
      else ([], slots)
    | none => ([], slots)
  { booked := booked, notifyList := notifyList,
    notificationSent :=
      decide (notifyList ≠ []) &&
        (match filters with
         | some f => f.notifications_enabled
         | none => false) }

/-! ## ContinuousSearchManager (src/services/supply_finder.py) -/

/-- One value of the `active_searches` dict
(src/services/supply_finder.py lines 43-48), minus the task handle. -/
structure SearchSession where
  supply_number : String
  account_id : Nat
  started_at : Nat
  deriving DecidableEq, Repr

/-- The `active_searches` dict of `SupplyFinderService`, keyed by user id,
modelled as an association list. -/
structure FinderState where
  active_searches : List (Nat × SearchSession) := []
  deriving DecidableEq, Repr

/-- Embeds `SupplyFinderService.is_user_searching`
(src/services/supply_finder.py lines 225-227). -/
def is_user_searching (st : FinderState) (user_id : Nat) : Bool :=
  st.active_searches.any (fun p => p.1 = user_id)

/-- Embeds `SupplyFinderService.stop_supply_search`
(src/services/supply_finder.py lines 72-110): when the user has a session
it is cancelled and removed and `True` returned, otherwise `False` (a
no-op). -/
def stop_supply_search (st : FinderState) (user_id : Nat) :
    Bool × FinderState :=
  if is_user_searching st user_id then
    (true, ⟨st.active_searches.filter (fun p => p.1 ≠ user_id)⟩)
  else (false, st)

/-- The account validation performed by
`SupplyFinderService.start_supply_search`
(src/services/supply_finder.py lines 29-37): the user must exist, own an
account with the given id, and that account must be active. -/
def accountValid (db : Db) (user_id account_id : Nat) : Bool :=
  match db_get_user_with_accounts db user_id with
  | none => false
  | some user =>
    match user.wb_accounts.find? (fun a => a.id = account_id) with
    | none => false
    | some account => account.is_active

/-- Embeds `SupplyFinderService.start_supply_search`
(src/services/supply_finder.py lines 22-70): any existing search of the
user is stopped first, then the account is validated (failing without
creating a session), then the new session is stored under the user's
key. -/
def start_supply_search (db : Db) (st : FinderState)
    (user_id account_id : Nat) (supply_number : String) (now : Nat) :
    Bool × FinderState :=
  let st1 := (stop_supply_search st user_id).2
  match db_get_user_with_accounts db user_id with
  | none => (false, st1)
  | some user =>
    match user.wb_accounts.find? (fun a => a.id = account_id) with
    | none => (false, st1)
    | some account =>
      if account.is_active then
        (true, ⟨(user_id, ⟨supply_number, account_id, now⟩) ::
          st1.active_searches⟩)
      else (false, st1)

/-! ## Concrete fixtures used by the theorems -/

/-- A marketplace account owned by the user with telegram id 7. -/
def acctA : WBAccount :=
  { id := 2, user_id := 7, api_key := "key-a", name := "Main" }

/-- A user whose database id and telegram id are both 7, owning `acctA`. -/
def userA : UserRec := { id := 7, telegram_id := 7, wb_accounts := [acctA] }

/-- A database with `userA` and default filters. -/
def dbA : Db := { users := [userA], filters := [(7, {})] }

/-- An available slot with coefficient 1.3. -/
def slotA : SupplySlot :=
  { id := "s1", warehouse_id := "117501", warehouse_name := "Коледино",
    date := 5, time_start := "09:00", time_end := "12:00",
    coefficient := mkRat 13 10, region := some "Московская область" }

/-- The end-to-end scenario filters: minimum coefficient 1.2, every other
criterion at its default. -/
def filtersB : UserFilters := { min_coefficient := mkRat 12 10 }

/-- A database with `userA` and the minimum-coefficient-1.2 filters. -/
def dbB : Db := { users := [userA], filters := [(7, filtersB)] }

/-! ## C1 -/

/-- C1: the claim states that `validate_api_key` returns `false` when
every attempted endpoint/auth combination yields HTTP 401 and demo
fallback is disallowed (`force_demo = false`,
`allow_demo_fallback = false`), and only then.  The code does the
opposite: in that situation it returns `true` — the refusal of
`_enable_demo_mode` is discarded and demo mode is not even switched on —
while the only input region on which it returns `false` is the one where
demo mode was already forced on at entry (where the claim would allow no
`false` at all).  The 30 probes model the 6 auth methods x 5 endpoints
all answering 401. -/
theorem c1_validate_api_key_true_despite_all_401 :
    validate_api_key ⟨false, false⟩
        (List.replicate 30 ProbeResult.status401) = (true, ⟨false, false⟩) ∧
    validate_api_key ⟨true, false⟩
        (List.replicate 30 ProbeResult.status401) = (false, ⟨true, false⟩) := by
  decide

/-! ## C5 -/

/-- C5: with `force_demo = false` and `allow_demo_fallback = false`, a
total upstream outage makes `get_supply_slots` raise (`WBAPIError`,
modelled as `.error`) instead of returning mock data; with
`allow_demo_fallback = true` under the same outage it returns the
deterministic mock slot set. -/
theorem c5_get_supply_slots_outage_policy :
    ∀ now : Nat,
      (get_supply_slots ⟨false, false⟩ totalOutage now).1
          = .error "No working slots endpoint found" ∧
      (get_supply_slots ⟨false, true⟩ totalOutage now).1
          = .ok (generate_mock_slots now) := by
  intro now
  exact ⟨rfl, rfl⟩

/-! ## C4 -/

/-- C4 counterexample: the claim states that an exception other than
`BookingError` makes `book_slot` propagate the failure instead of
returning `false`.  On a concrete non-`BookingError` exception from the
booking call, `book_slot` returns `false` (after a generic error
notification) and propagates nothing. -/
theorem c4_counterexample_other_exception_returns_false :
    book_slot dbA acctA slotA false (.raiseOther "socket timeout")
      = (false, dbA, [.bookingErr 7 unknownBookingErrorText]) := by
  decide

/-- C4 amended: once the user lookup has succeeded, `book_slot` returns
`false` for every exception from the booking call: on `BookingError` it
sends an error notification carrying the error's message, on any other
exception it sends an error notification with the fixed generic text —
neither propagates. -/
theorem c4_book_slot_error_handling (db : Db) (account : WBAccount)
    (slot : SupplySlot) (auto : Bool) (msg : String) (user : UserRec)
    (h : db_get_user db account.user_id = some user) :
    book_slot db account slot auto (.raiseBookingError msg)
        = (false, db, [.bookingErr user.telegram_id msg]) ∧
    book_slot db account slot auto (.raiseOther msg)
        = (false, db, [.bookingErr user.telegram_id unknownBookingErrorText]) := by
  simp [book_slot, h]

/-- Witness for `c4_book_slot_error_handling` at a concrete database,
account, slot and message. -/
theorem c4_book_slot_error_handling_witness :
    db_get_user dbA acctA.user_id = some userA ∧
    book_slot dbA acctA slotA false (.raiseBookingError "Slot taken")
      = (false, dbA, [.bookingErr userA.telegram_id "Slot taken"]) :=
  ⟨by decide,
    (c4_book_slot_error_handling dbA acctA slotA false "Slot taken" userA
      (by decide)).1⟩

/-! ## C2 -/

/-- C2: in the end-to-end scenario (stored filters with minimum
coefficient 1.2, an attempt that finds an available slot of coefficient
1.3, and a booking call that succeeds), the claim states that
`auto_book_supply` attaches the supply number to the persisted
`BookedSlot` and returns `true`.  Instead: the `BookedSlot` row is
persisted (with `auto_booked = true`), but the follow-up call
`db.update_booked_slot_supply_number(...)` resolves an attribute that
`DatabaseManager` does not define, so it raises `AttributeError`, the
outer handler returns `false`, and `supply_number` stays `None` — the
continuous-search loop therefore never sees a successful attempt and the
session does not complete. -/
theorem c2_auto_book_supply_never_reports_success :
    auto_book_supply dbB 7 2 "WB123456789" (.ok [slotA]) (fun _ => .retTrue)
      = (false,
          { dbB with booked_slots :=
              [ { user_id := 7, wb_account_id := 2, slot_id := "s1",
                  warehouse_id := "117501", warehouse_name := "Коледино",
                  supply_date := 5, time_slot := "09:00-12:00",
                  coefficient := mkRat 13 10, supply_number := none,
                  auto_booked := true } ] },
          [.bookingSuccess 7 "s1" true]) ∧
    dbMethodLookup "update_booked_slot_supply_number"
      = .error
          "AttributeError: DatabaseManager has no attribute update_booked_slot_supply_number" := by
  exact ⟨rfl, rfl⟩

/-! ## C3 -/

/-- A filter allowing a single region, everything else at defaults. -/
def critRegions : UserFilters := { regions := ["Московская область"] }

/-- A filter with quiet hours 22 to 6 and notifications enabled
(the default), everything else at defaults. -/
def critQuiet : UserFilters :=
  { quiet_hours_start := some 22, quiet_hours_end := some 6 }

/-- An available slot whose region is unset (`None`). -/
def slotNoRegion : SupplySlot :=
  { id := "nr", warehouse_id := "w1", warehouse_name := "W", date := 3,
    time_start := "09:00", time_end := "12:00", coefficient := 2 }

/-- A filter with one stored time-slot id (the format
`handle_save_time_slots` writes), everything else at defaults. -/
def critTime : UserFilters := { time_slots := ["morning"] }

/-- C3 counterexample: the claim states that the monitor's filter
predicate and the auto-booking path's filter predicate accept exactly the
same slots for every slot and criteria.  They do not: a slot with an
unset region is rejected by the monitor but accepted by the booking path
when a region filter is set; during quiet hours (hour 23 with quiet hours
22 to 6) the monitor rejects every slot while the booking path ignores
quiet hours entirely; and with a non-empty time-window set the monitor
raises `TypeError` on the stored string ids while the booking path runs
its substring test without error and drops the slot. -/
theorem c3_counterexample_filters_differ :
    (monitorKeeps critRegions slotNoRegion 10 = .ok false ∧
        bookingKeeps (some critRegions) slotNoRegion = true) ∧
    (monitorKeeps critQuiet slotA 23 = .ok false ∧
        bookingKeeps (some critQuiet) slotA = true) ∧
    (monitorKeeps critTime slotA 10
          = .error "TypeError: string indices must be integers" ∧
        bookingKeeps (some critTime) slotA = false) := by
  exact ⟨⟨rfl, rfl⟩, ⟨rfl, rfl⟩, ⟨rfl, rfl⟩⟩

set_option maxHeartbeats 1600000 in
/-- C3 amended: the two predicates agree only on a restricted regime —
empty time-window set (with a non-empty one the monitor raises
`TypeError` subscripting the stored string ids while the booking path
runs an error-free substring test against the `HH:MM-HH:MM` string),
available slots (the monitor never checks availability, its input is
pre-filtered), no quiet-hours suppression at the current hour (the
booking path never suppresses), a slot region that is set and non-empty
whenever the region allow-list is non-empty (the monitor rejects unset
regions, the booking path waves them through), and a max coefficient that
is not stored as zero (Python truthiness makes the monitor ignore a zero
bound).  In that regime both paths accept exactly the same slots. -/
theorem c3_restricted_equivalence (f : UserFilters) (slot : SupplySlot)
    (hour : Nat) (ht : f.time_slots = [])
    (hav : slot.is_available = true)
    (hq : quietHoursSuppressed f.quiet_hours_start f.quiet_hours_end
        f.notifications_enabled hour = false)
    (hr : f.regions = [] ∨ ∃ r, slot.region = some r ∧ r ≠ "")
    (hm : ∀ m, f.max_coefficient = some m → m ≠ 0) :
    monitorKeeps f slot hour = .ok (bookingKeeps (some f) slot) := by
  rcases hr with h0 | ⟨r, hre, hrne⟩
  · cases hmx : f.max_coefficient with
    | none =>
      simp only [bookingKeeps, monitorKeeps, hav, ht, hq, h0, hmx]
      split_ifs <;> simp_all
    | some m =>
      have hm0 : m ≠ 0 := hm m hmx
      simp only [bookingKeeps, monitorKeeps, hav, ht, hq, h0, hmx]
      split_ifs <;> simp_all
  · cases hmx : f.max_coefficient with
    | none =>
      simp only [bookingKeeps, monitorKeeps, hav, ht, hq, hre, hmx,
        regionTruthy, regionMem]
      split_ifs <;> simp_all
    | some m =>
      have hm0 : m ≠ 0 := hm m hmx
      simp only [bookingKeeps, monitorKeeps, hav, ht, hq, hre, hmx,
        regionTruthy, regionMem]
      split_ifs <;> simp_all

/-- Witness for `c3_restricted_equivalence` at the single-region filter
and the region-carrying slot, hour 10. -/
theorem c3_restricted_equivalence_witness :
    critRegions.time_slots = [] ∧ slotA.is_available = true ∧
    monitorKeeps critRegions slotA 10
      = .ok (bookingKeeps (some critRegions) slotA) :=
  ⟨rfl, rfl,
    c3_restricted_equivalence critRegions slotA 10 rfl rfl rfl
      (Or.inr ⟨"Московская область", rfl, by decide⟩)
      (fun _ h => Option.noConfusion h)⟩

/-! ## C6 -/

/-- Auto-booking enabled with daily limit 2. -/
def critLimit2 : UserFilters :=
  { auto_booking_enabled := true, auto_booking_limit := 2 }

/-- Auto-booking enabled with daily limit 1. -/
def critLimit1 : UserFilters :=
  { auto_booking_enabled := true, auto_booking_limit := 1 }

/-- A matching slot of coefficient 1.5. -/
def slot15 : SupplySlot :=
  { id := "a15", warehouse_id := "w1", warehouse_name := "W", date := 3,
    time_start := "09:00", time_end := "12:00", coefficient := mkRat 15 10 }

/-- A matching slot of coefficient 1.3. -/
def slot13 : SupplySlot :=
  { id := "a13", warehouse_id := "w1", warehouse_name := "W", date := 3,
    time_start := "09:00", time_end := "12:00", coefficient := mkRat 13 10 }

/-- A matching slot of coefficient 1.1. -/
def slot11 : SupplySlot :=
  { id := "a11", warehouse_id := "w1", warehouse_name := "W", date := 3,
    time_start := "09:00", time_end := "12:00", coefficient := mkRat 11 10 }

/-- C6: within one tick `_process_new_slots` respects the budget — with
limit 2 and new slots of coefficients [1.5, 1.3, 1.1] exactly the two
highest are booked and only the remaining one is notified (the spec's
example).  Across ticks, however, the claimed per-day bound fails:
`_get_today_bookings_count` is a stub that always returns 0, so every
tick is granted the full daily limit again — with limit 1, two ticks in
the same day each book one slot, for a day total of 2 > 1. -/
theorem c6_daily_limit_resets_every_tick :
    ((process_new_slots (some critLimit2) (fun _ => true) 7
        [slot15, slot13, slot11]).booked = [slot15, slot13] ∧
      (process_new_slots (some critLimit2) (fun _ => true) 7
        [slot15, slot13, slot11]).notifyList = [slot11] ∧
      (process_new_slots (some critLimit2) (fun _ => true) 7
        [slot15, slot13, slot11]).notificationSent = true) ∧
    (∀ uid : Nat, get_today_bookings_count uid = 0) ∧
    (process_new_slots (some critLimit1) (fun _ => true) 7
        [slot15]).booked.length
      + (process_new_slots (some critLimit1) (fun _ => true) 7
        [slot13]).booked.length = 2 := by
  exact ⟨⟨rfl, rfl, rfl⟩, fun _ => rfl, rfl⟩

/-! ## C9 -/

/-- C9: the monitor filter at hour 23 with quiet hours 22 to 6 and
notifications enabled excludes the slot from notification eligibility,
and at hour 10 includes it; and in general the quiet-hours test accepts
exactly the half-open hour interval of circular length
`(end - start) mod 24` starting at `start` — which wraps past midnight
exactly when `start > end`. -/
theorem c9_quiet_hours_wraparound (s e h : Nat)
    (hs : s < 24) (he : e < 24) (hh : h < 24) :
    monitorApplyFilters (some critQuiet) [slotA] 23 = .ok [] ∧
    monitorApplyFilters (some critQuiet) [slotA] 10 = .ok [slotA] ∧
    (quietHoursSuppressed (some s) (some e) true h = true ↔
      (h + 24 - s) % 24 < (e + 24 - s) % 24) := by
  refine ⟨rfl, rfl, ?_⟩
  simp only [quietHoursSuppressed, if_true]
  split_ifs with hse <;> simp only [decide_eq_true_eq] <;> omega

/-- Witness for `c9_quiet_hours_wraparound` at quiet hours 22 to 6 and
current hour 23. -/
theorem c9_quiet_hours_wraparound_witness :
    (22 : Nat) < 24 ∧ (6 : Nat) < 24 ∧ (23 : Nat) < 24 ∧
    (quietHoursSuppressed (some 22) (some 6) true 23 = true ↔
      (23 + 24 - 22) % 24 < (6 + 24 - 22) % 24) :=
  ⟨by decide, by decide, by decide,
    (c9_quiet_hours_wraparound 22 6 23 (by decide) (by decide)
      (by decide)).2.2⟩

/-! ## C7 -/

/-- The remembered id set is replaced wholesale by the current id set. -/
theorem accountTick_snd (last : Finset String) (slots : List SupplySlot) :
    (accountTick last slots).2 = slotIds slots := rfl

/-- The ids of the slots reported as new are exactly the current filtered
id set minus the previously remembered id set. -/
theorem slotIds_accountTick_new (last : Finset String)
    (slots : List SupplySlot) :
    slotIds (accountTick last slots).1 = slotIds slots \ last := by
  ext x
  simp only [accountTick, slotIds, List.mem_toFinset, List.mem_map,
    List.mem_filter, decide_eq_true_eq, Finset.mem_sdiff]
  aesop

/-- C7: for one account and consecutive ticks, the id set reported as new
is the current filtered id set minus the remembered set, and the
remembered set is then replaced wholesale (not unioned); hence an id seen
on tick 1, absent on tick 2 and present on tick 3 is reported as new
again on tick 3, while an id persisting from tick 1 to tick 2 is not
reported on tick 2 (and a disappearing id, absent from the current set,
cannot be reported at all). -/
theorem c7_new_slot_diffing (last : Finset String)
    (slots s1 s2 s3 : List SupplySlot) (a b : String)
    (ha1 : a ∈ slotIds s1) (ha2 : a ∉ slotIds s2) (ha3 : a ∈ slotIds s3)
    (hb1 : b ∈ slotIds s1) (hb2 : b ∈ slotIds s2) :
    slotIds (accountTick last slots).1 = slotIds slots \ last ∧
    (accountTick last slots).2 = slotIds slots ∧
    a ∈ slotIds
        (accountTick (accountTick (accountTick ∅ s1).2 s2).2 s3).1 ∧
    b ∉ slotIds (accountTick (accountTick ∅ s1).2 s2).1 := by
  refine ⟨slotIds_accountTick_new last slots, rfl, ?_, ?_⟩
  · rw [slotIds_accountTick_new, accountTick_snd, Finset.mem_sdiff]
    exact ⟨ha3, ha2⟩
  · rw [slotIds_accountTick_new, accountTick_snd, Finset.mem_sdiff]
    exact fun h => h.2 hb1

/-- A slot with id `A` for the diffing scenario. -/
def slotIdA : SupplySlot :=
  { id := "A", warehouse_id := "w1", warehouse_name := "W", date := 1,
    time_start := "09:00", time_end := "12:00", coefficient := 2 }

/-- A slot with id `B` for the diffing scenario. -/
def slotIdB : SupplySlot :=
  { id := "B", warehouse_id := "w1", warehouse_name := "W", date := 1,
    time_start := "09:00", time_end := "12:00", coefficient := 2 }

/-- A slot with id `C` for the diffing scenario. -/
def slotIdC : SupplySlot :=
  { id := "C", warehouse_id := "w1", warehouse_name := "W", date := 1,
    time_start := "09:00", time_end := "12:00", coefficient := 2 }

/-- Witness for `c7_new_slot_diffing` on the spec's scenario: ids
`{A, B}` on tick 1, `{B, C}` on tick 2, `{A}` on tick 3. -/
theorem c7_new_slot_diffing_witness :
    ("A" ∈ slotIds [slotIdA, slotIdB]) ∧
    ("A" ∉ slotIds [slotIdB, slotIdC]) ∧
    ("A" ∈ slotIds
        (accountTick
          (accountTick (accountTick ∅ [slotIdA, slotIdB]).2
            [slotIdB, slotIdC]).2 [slotIdA]).1) ∧
    ("B" ∉ slotIds
        (accountTick (accountTick ∅ [slotIdA, slotIdB]).2
          [slotIdB, slotIdC]).1) := by
  have h := c7_new_slot_diffing ∅ [] [slotIdA, slotIdB] [slotIdB, slotIdC]
    [slotIdA] "A" "B" (by decide) (by decide) (by decide) (by decide)
    (by decide)
  exact ⟨by decide, by decide, h.2.2.1, h.2.2.2⟩

/-! ## C8 and C10 -/

/-- After `stop_supply_search` the session list holds exactly the entries
of other users (when the user had no session the filter is the
identity). -/
theorem stop_supply_search_active (st : FinderState) (u : Nat) :
    (stop_supply_search st u).2.active_searches
      = st.active_searches.filter (fun p => p.1 ≠ u) := by
  unfold stop_supply_search
  split_ifs with h
  · rfl
  · unfold is_user_searching at h
    symm
    rw [List.filter_eq_self]
    intro p hp
    simp only [List.any_eq_true, decide_eq_true_eq] at h
    simp only [decide_eq_true_eq]
    exact fun he => h ⟨p, hp, he⟩

/-- The function `start_supply_search` reports success exactly when the account
validation succeeds. -/
theorem start_supply_search_fst (db : Db) (st : FinderState)
    (u aid : Nat) (s : String) (t : Nat) :
    (start_supply_search db st u aid s t).1 = accountValid db u aid := by
  unfold start_supply_search accountValid
  cases hu : db_get_user_with_accounts db u with
  | none => simp
  | some user =>
    cases ha : user.wb_accounts.find? (fun a => a.id = aid) with
    | none => simp [ha]
    | some account => cases hact : account.is_active <;> simp [ha, hact]

/-- The session list after `start_supply_search`: the user's previous
entries are always removed, and the new session is prepended exactly when
the account validation succeeds. -/
theorem start_supply_search_active (db : Db) (st : FinderState)
    (u aid : Nat) (s : String) (t : Nat) :
    (start_supply_search db st u aid s t).2.active_searches
      = if accountValid db u aid
        then (u, ⟨s, aid, t⟩) ::
          st.active_searches.filter (fun p => p.1 ≠ u)
        else st.active_searches.filter (fun p => p.1 ≠ u) := by
  unfold start_supply_search accountValid
  cases hu : db_get_user_with_accounts db u with
  | none => simp [stop_supply_search_active]
  | some user =>
    cases ha : user.wb_accounts.find? (fun a => a.id = aid) with
    | none => simp [ha, stop_supply_search_active]
    | some account =>
      cases hact : account.is_active <;>
        simp [ha, hact, stop_supply_search_active]

/-- A successful start leaves exactly one session entry for the user. -/
theorem start_filter_self (db : Db) (st : FinderState) (u aid : Nat)
    (s : String) (t : Nat) (h : accountValid db u aid = true) :
    (start_supply_search db st u aid s t).2.active_searches.filter
      (fun p => p.1 = u) = [(u, ⟨s, aid, t⟩)] := by
  rw [start_supply_search_active, h]
  simp only [if_true]
  rw [List.filter_cons_of_pos (by simp)]
  have hnil : (st.active_searches.filter (fun p => p.1 ≠ u)).filter
      (fun p => p.1 = u) = [] := by
    rw [List.filter_eq_nil_iff]
    intro p hp
    simp only [List.mem_filter, decide_eq_true_eq] at hp
    simp only [decide_eq_true_eq]
    exact hp.2
  rw [hnil]

/-- C8: starting twice for the same user (both accounts valid) succeeds
both times and leaves exactly one active session for that user, whose
supply number is the one from the second call — the first start's
session is cancelled and removed by the second. -/
theorem c8_single_flight (db : Db) (st : FinderState) (u a1 a2 : Nat)
    (s1 s2 : String) (t1 t2 : Nat)
    (h1 : accountValid db u a1 = true)
    (h2 : accountValid db u a2 = true) :
    (start_supply_search db st u a1 s1 t1).1 = true ∧
    (start_supply_search db (start_supply_search db st u a1 s1 t1).2
        u a2 s2 t2).1 = true ∧
    (start_supply_search db (start_supply_search db st u a1 s1 t1).2
        u a2 s2 t2).2.active_searches.filter (fun p => p.1 = u)
      = [(u, ⟨s2, a2, t2⟩)] ∧
    ((start_supply_search db (start_supply_search db st u a1 s1 t1).2
        u a2 s2 t2).2.active_searches.find? (fun p => p.1 = u)).map
      (fun p => p.2.supply_number) = some s2 := by
  refine ⟨by rw [start_supply_search_fst]; exact h1,
    by rw [start_supply_search_fst]; exact h2,
    start_filter_self db _ u a2 s2 t2 h2, ?_⟩
  rw [start_supply_search_active, h2]
  simp only [if_true]
  rw [List.find?_cons_of_pos _ (by simp)]
  rfl

/-- Witness for `c8_single_flight`: two starts for user 7 on the valid
account 2 with supply numbers N1 then N2, from the empty session map. -/
theorem c8_single_flight_witness :
    accountValid dbA 7 2 = true ∧
    (start_supply_search dbA (start_supply_search dbA ⟨[]⟩ 7 2 "N1" 0).2
        7 2 "N2" 1).2.active_searches.filter (fun p => p.1 = 7)
      = [(7, ⟨"N2", 2, 1⟩)] :=
  ⟨by decide,
    (c8_single_flight dbA ⟨[]⟩ 7 2 2 "N1" "N2" 0 1 (by decide)
      (by decide)).2.2.1⟩

/-- C10: when a user already has an active search and `start` is called
with an account that fails validation (missing, not the user's, or
inactive), the call returns `false` and the user is left with no active
session: the old session was torn down before validation, so the failed
start destroys it rather than leaving state unchanged. -/
theorem c10_failed_start_drops_session (db : Db) (st : FinderState)
    (u aid : Nat) (s : String) (t : Nat)
    (hs : is_user_searching st u = true)
    (hbad : accountValid db u aid = false) :
    (start_supply_search db st u aid s t).1 = false ∧
    is_user_searching (start_supply_search db st u aid s t).2 u = false := by
  refine ⟨by rw [start_supply_search_fst]; exact hbad, ?_⟩
  unfold is_user_searching
  rw [start_supply_search_active, hbad]
  simp only [Bool.false_eq_true, if_false]
  rw [List.any_eq_false]
  intro p hp
  simp only [List.mem_filter, decide_eq_true_eq] at hp
  simp only [decide_eq_true_eq]
  exact hp.2

/-- Witness for `c10_failed_start_drops_session`: user 7 is searching and
names the non-existent account 99. -/
theorem c10_failed_start_drops_session_witness :
    is_user_searching ⟨[(7, ⟨"N1", 2, 0⟩)]⟩ 7 = true ∧
    accountValid dbA 7 99 = false ∧
    (start_supply_search dbA ⟨[(7, ⟨"N1", 2, 0⟩)]⟩ 7 99 "N2" 1).1
        = false ∧
    is_user_searching
        (start_supply_search dbA ⟨[(7, ⟨"N1", 2, 0⟩)]⟩ 7 99 "N2" 1).2 7
      = false := by
  have h := c10_failed_start_drops_session dbA ⟨[(7, ⟨"N1", 2, 0⟩)]⟩ 7 99
    "N2" 1 (by decide) (by decide)
  exact ⟨by decide, by decide, h.1, h.2⟩

end Postavki
